import Mathlib

/-!
Shallow embedding of the UHI (Urban Heat Island) analysis pipeline from
`backend/app.py`.

The pipeline is the `analyze_uhi` request handler: it generates `points`
synthetic observations (coordinates, land-surface temperature `lst`,
vegetation index `ndvi`), classifies each into a heat zone with derived
display fields, then computes per-point heat intensity (deviation from the
mean temperature) and aggregate statistics.

Modelling choices:
  - Python floats are embedded as `ℚ`; `round(x, d)` is embedded as
    `pyRound d x` (round-half to nearest multiple of `10 ^ (-d)`; Python's
    tie-breaking on binary floats differs only on exact ties, which no claim
    depends on).
  - `random.uniform` draws are an injected stream `draws : ℕ → Draw`, one
    `Draw` record per generated point (lat offset, lon offset, raw lst,
    raw ndvi factor), matching the four `random.uniform` calls per loop
    iteration in `analyze_uhi`.
  - Python's `ZeroDivisionError` at `sum(temp_list) / len(temp_list)` is
    embedded as the guard `if temp_list.length = 0`; the `try/except` in
    `analyze_uhi` that converts the exception into a `success: false`
    response is embedded as `Except.error "division by zero"`.
  - `std_lst` (a real square root) and the `date_range` block (wall-clock
    time) are omitted from the `Statistics` record: neither is computable
    over `ℚ` / statable without real time, and no claim depends on them.
  - `int(request.args.get(...))` parameter parsing is embedded by `pyInt`
    over a `RawParam` that is either absent, an integer, or a non-numeric
    token (on which Python's `int` raises `ValueError` with a descriptive
    message, caught by the handler and returned as the error result).
-/

/-- One iteration's worth of `random.uniform` draws in the generation loop of
`analyze_uhi` (app.py lines 104-115): latitude offset, longitude offset,
raw temperature in [28, 45], raw ndvi factor in [0.1, 0.8]. -/
structure Draw where
  dLat : ℚ
  dLon : ℚ
  uLst : ℚ
  uNdvi : ℚ
deriving DecidableEq, Inhabited

/-- Python `round(q, d)`: round to `d` decimal digits. -/
def pyRound (d : ℕ) (q : ℚ) : ℚ :=
  (round (q * 10 ^ d) : ℤ) / 10 ^ d

/-- `classify_vegetation` (app.py lines 23-32): NDVI breakpoints, exclusive
upper bounds, evaluated low-to-high. -/
def classify_vegetation (ndvi : ℚ) : String :=
  if ndvi < 0.2 then "Water/Built-up"
  else if ndvi < 0.4 then "Barren/Sparse"
  else if ndvi < 0.6 then "Moderate Vegetation"
  else "Dense Vegetation"

/-- `get_zone_color` (app.py lines 35-42): dict lookup with default
"#9ca3af". -/
def get_zone_color (zone : ℕ) : String :=
  if zone = 0 then "#ef4444"
  else if zone = 1 then "#f97316"
  else if zone = 2 then "#22c55e"
  else "#9ca3af"

/-- `get_severity` (app.py lines 45-52): dict lookup with default
"Unknown". -/
def get_severity (zone : ℕ) : String :=
  if zone = 0 then "High"
  else if zone = 1 then "Medium"
  else if zone = 2 then "Low"
  else "Unknown"

/-- `get_recommendation` (app.py lines 55-68): 2-level decision on
(zone, ndvi); the final `else` covers zone 2 (and any other zone) without
consulting ndvi. -/
def get_recommendation (zone : ℕ) (ndvi : ℚ) : String :=
  if zone = 0 then
    if ndvi < 0.3 then "Plant more trees and create green spaces urgently"
    else "Improve ventilation and add water features"
  else if zone = 1 then
    if ndvi < 0.4 then "Increase vegetation cover and add shade structures"
    else "Maintain current green cover and monitor temperature"
  else "Maintain existing vegetation and urban planning"

/-- The inline zone classification of `analyze_uhi` (app.py lines 122-127):
`lst >= 40` → 0 (high heat), `lst >= 34` → 1 (medium), else 2 (low). -/
def classifyZone (lst : ℚ) : ℕ :=
  if lst ≥ 40 then 0
  else if lst ≥ 34 then 1
  else 2

/-- One generated data point (the dict built at app.py lines 134-145). -/
structure Observation where
  lat : ℚ
  lon : ℚ
  lst : ℚ
  ndvi : ℚ
  zone : ℕ
  vegetation : String
  color : String
  severity : String
  recommendation : String
  uhi_intensity : ℚ
deriving DecidableEq, Inhabited

/-- One iteration of the generation loop (app.py lines 104-145): center is
Bhubaneswar (20.2961, 85.8245); `lst` is the uniform draw rounded to 2
decimals; `ndvi` is `uniform(0.1, 0.8) * (1 - (lst - 28) / 20)` rounded to 3
decimals then clamped into [0.05, 0.85]; `uhi_intensity` starts at 0 and is
overwritten by the second pass. -/
def mkObservation (d : Draw) : Observation :=
  let lat := (20.2961 : ℚ) + d.dLat
  let lon := (85.8245 : ℚ) + d.dLon
  let lst := pyRound 2 d.uLst
  let ndviRaw := pyRound 3 (d.uNdvi * (1 - (lst - 28) / 20))
  let ndvi := max 0.05 (min 0.85 ndviRaw)
  let zone := classifyZone lst
  { lat := lat
    lon := lon
    lst := lst
    ndvi := ndvi
    zone := zone
    vegetation := classify_vegetation ndvi
    color := get_zone_color zone
    severity := get_severity zone
    recommendation := get_recommendation zone ndvi
    uhi_intensity := 0 }

/-- The generation loop `for _ in range(points)` (app.py line 104), with the
i-th iteration consuming `draws i`. -/
def genObservations (n : ℕ) (draws : ℕ → Draw) : List Observation :=
  (List.range n).map (fun i => mkObservation (draws i))

/-- The second pass over `results` (app.py lines 151-153): set
`uhi_intensity = round(lst - mean_temp, 2)`. -/
def updateIntensity (mean_temp : ℚ) (p : Observation) : Observation :=
  { p with uhi_intensity := pyRound 2 (p.lst - mean_temp) }

/-- Python `min` over a list (app.py uses it only on nonempty lists; the
empty case is unreachable behind the division-by-zero guard). -/
def listMin : List ℚ → ℚ
  | [] => 0
  | a :: t => t.foldl min a

/-- Python `max` over a list (same note as `listMin`). -/
def listMax : List ℚ → ℚ
  | [] => 0
  | a :: t => t.foldl max a

/-- The nested `temperature` statistics dict (app.py lines 162-167);
`std_lst` is omitted (real square root, no claim depends on it). -/
structure TemperatureStats where
  min_lst : ℚ
  max_lst : ℚ
  avg_lst : ℚ
deriving DecidableEq, Inhabited

/-- The nested `vegetation` statistics dict (app.py lines 168-172). -/
structure VegetationStats where
  min_ndvi : ℚ
  max_ndvi : ℚ
  avg_ndvi : ℚ
deriving DecidableEq, Inhabited

/-- The nested `uhi` statistics dict (app.py lines 173-177). -/
structure UhiStats where
  min_intensity : ℚ
  max_intensity : ℚ
  avg_intensity : ℚ
deriving DecidableEq, Inhabited

/-- The `statistics` dict (app.py lines 157-183); the `date_range` block is
omitted (wall-clock time, not statable; it is display-only and raises no
error for any integer `days`). -/
structure Statistics where
  total_points : ℤ
  high_heat_zones : ℕ
  medium_heat_zones : ℕ
  low_heat_zones : ℕ
  temperature : TemperatureStats
  vegetation : VegetationStats
  uhi : UhiStats
deriving DecidableEq, Inhabited

/-- The successful response body (app.py lines 189-193): `data` plus
`statistics` (the `success: true` flag is carried by `Except.ok`). -/
structure UHIResult where
  data : List Observation
  statistics : Statistics
deriving DecidableEq, Inhabited

/-- The straight-line success path of `analyze_uhi` after the
division-by-zero point (app.py lines 104-183): generation, mean temperature,
intensity update pass, and the statistics record. -/
def successResult (points : ℤ) (draws : ℕ → Draw) : UHIResult :=
  let results := genObservations points.toNat draws
  let temp_list := results.map (fun p => p.lst)
  let mean_temp := temp_list.sum / (temp_list.length : ℚ)
  let results2 := results.map (updateIntensity mean_temp)
  let uhi_list := results2.map (fun p => p.uhi_intensity)
  let ndvi_list := results.map (fun p => p.ndvi)
  { data := results2
    statistics :=
      { total_points := points
        high_heat_zones := (results2.filter (fun p => p.zone == 0)).length
        medium_heat_zones := (results2.filter (fun p => p.zone == 1)).length
        low_heat_zones := (results2.filter (fun p => p.zone == 2)).length
        temperature :=
          { min_lst := pyRound 1 (listMin temp_list)
            max_lst := pyRound 1 (listMax temp_list)
            avg_lst := pyRound 1 mean_temp }
        vegetation :=
          { min_ndvi := pyRound 3 (listMin ndvi_list)
            max_ndvi := pyRound 3 (listMax ndvi_list)
            avg_ndvi := pyRound 3 (ndvi_list.sum / (ndvi_list.length : ℚ)) }
        uhi :=
          { min_intensity := pyRound 1 (listMin uhi_list)
            max_intensity := pyRound 1 (listMax uhi_list)
            avg_intensity := pyRound 1 (uhi_list.sum / (uhi_list.length : ℚ)) } } }

set_option linter.unusedVariables false in
/-- `analyze_uhi` (app.py lines 87-200) for already-parsed integer `points`
and `days`: `range(points)` runs `points.toNat` iterations (zero for
negative `points`); the division `sum(temp_list) / len(temp_list)` raises
`ZeroDivisionError` on an empty list, which the handler's `except` turns
into the failure result. `days` feeds only the omitted `date_range` display
block and never raises. -/
def analyze_uhi (points days : ℤ) (draws : ℕ → Draw) : Except String UHIResult :=
  if ((genObservations points.toNat draws).map (fun p => p.lst)).length = 0 then
    Except.error "division by zero"
  else
    Except.ok (successResult points draws)

/-- A raw HTTP query parameter as seen by `int(request.args.get(name, default))`
(app.py lines 89-90): absent (default applies), an integer literal, or a
non-numeric token on which `int` raises `ValueError`. -/
inductive RawParam where
  | absent
  | intVal (n : ℤ)
  | nonNumeric (s : String)
deriving DecidableEq, Inhabited

/-- Python `int(request.args.get(name, default))`: the `ValueError` message
for a non-numeric token is caught by the handler and returned as the error
result. -/
def pyInt (p : RawParam) (default : ℤ) : Except String ℤ :=
  match p with
  | RawParam.absent => Except.ok default
  | RawParam.intVal n => Except.ok n
  | RawParam.nonNumeric s =>
      Except.error ("invalid literal for int() with base 10: " ++ s)

/-- The full `analyze_uhi` request handler (app.py lines 87-200): parse
`points` (default 100) then `days` (default 30), then run the pipeline; any
exception is returned as the failure result. -/
def handle_analyze (pointsParam daysParam : RawParam) (draws : ℕ → Draw) :
    Except String UHIResult :=
  match pyInt pointsParam 100 with
  | Except.error e => Except.error e
  | Except.ok points =>
      match pyInt daysParam 30 with
      | Except.error e => Except.error e
      | Except.ok days => analyze_uhi points days draws

/-- A fixed draw stream for concrete runs: offsets 0, raw temperature 30,
raw ndvi factor 1/2. -/
def defaultDraws : ℕ → Draw := fun _ => ⟨0, 0, 30, 1/2⟩

/-- The injected draw stream of the spec's `points = 1` example: raw
temperature 45 and raw ndvi factor 2/3, so that `lst = 45.0` and
`ndvi = round(2/3 * (1 - 17/20), 3) = 0.1`. -/
def injDraws : ℕ → Draw := fun _ => ⟨0, 0, 45, 2/3⟩

/-- The single observation of the `points = 1` run on `defaultDraws`,
written out explicitly. -/
def sampleObs : Observation :=
  { lat := 20.2961
    lon := 85.8245
    lst := 30
    ndvi := 0.45
    zone := 2
    vegetation := "Moderate Vegetation"
    color := "#22c55e"
    severity := "Low"
    recommendation := "Maintain existing vegetation and urban planning"
    uhi_intensity := 0 }

/-- The full result of the `points = 1` run on `defaultDraws`. -/
def sampleRes : UHIResult :=
  { data := [sampleObs]
    statistics :=
      { total_points := 1
        high_heat_zones := 0
        medium_heat_zones := 0
        low_heat_zones := 1
        temperature := { min_lst := 30, max_lst := 30, avg_lst := 30 }
        vegetation := { min_ndvi := 0.45, max_ndvi := 0.45, avg_ndvi := 0.45 }
        uhi := { min_intensity := 0, max_intensity := 0, avg_intensity := 0 } } }

/-- The single observation of the `points = 1` run on `injDraws`. -/
def injObs : Observation :=
  { lat := 20.2961
    lon := 85.8245
    lst := 45
    ndvi := 0.1
    zone := 0
    vegetation := "Water/Built-up"
    color := "#ef4444"
    severity := "High"
    recommendation := "Plant more trees and create green spaces urgently"
    uhi_intensity := 0 }

/-- The full result of the `points = 1` run on `injDraws`. -/
def injRes : UHIResult :=
  { data := [injObs]
    statistics :=
      { total_points := 1
        high_heat_zones := 1
        medium_heat_zones := 0
        low_heat_zones := 0
        temperature := { min_lst := 45, max_lst := 45, avg_lst := 45 }
        vegetation := { min_ndvi := 0.1, max_ndvi := 0.1, avg_ndvi := 0.1 }
        uhi := { min_intensity := 0, max_intensity := 0, avg_intensity := 0 } } }

/-- Evaluation of the pipeline at `points = 1` on `defaultDraws`. -/
theorem sample_run_eq : analyze_uhi 1 30 defaultDraws = Except.ok sampleRes := by
  norm_num [analyze_uhi, successResult, genObservations, mkObservation, updateIntensity,
    defaultDraws, classifyZone, classify_vegetation, get_zone_color, get_severity,
    get_recommendation, listMin, listMax, sampleRes, sampleObs, pyRound,
    round_eq, min_def, max_def, List.filter]
  decide

/-- Evaluation of the pipeline at `points = 1` on `injDraws`. -/
theorem inj_run_eq : analyze_uhi 1 30 injDraws = Except.ok injRes := by
  norm_num [analyze_uhi, successResult, genObservations, mkObservation, updateIntensity,
    injDraws, classifyZone, classify_vegetation, get_zone_color, get_severity,
    get_recommendation, listMin, listMax, injRes, injObs, pyRound,
    round_eq, min_def, max_def, List.filter]
  decide

/-- Eliminator for a successful run: success forces a nonempty generation
(otherwise the division raises) and the result is the straight-line value. -/
theorem analyze_ok_elim (points days : ℤ) (draws : ℕ → Draw) (r : UHIResult)
    (h : analyze_uhi points days draws = Except.ok r) :
    points.toNat ≠ 0 ∧ r = successResult points draws := by
  unfold analyze_uhi at h
  by_cases hc : ((genObservations points.toNat draws).map (fun p => p.lst)).length = 0
  · rw [if_pos hc] at h
    exact absurd h (by simp)
  · rw [if_neg hc] at h
    refine ⟨fun h0 => hc ?_, (Except.ok.inj h).symm⟩
    simp [genObservations, h0]

/-- The data sequence of the success value is the generated list with the
intensity update applied using the mean temperature. -/
theorem successResult_data (points : ℤ) (draws : ℕ → Draw) :
    (successResult points draws).data =
      (genObservations points.toNat draws).map
        (updateIntensity
          (((genObservations points.toNat draws).map (fun p => p.lst)).sum /
            ((((genObservations points.toNat draws).map (fun p => p.lst)).length : ℕ) : ℚ))) :=
  rfl

/-- The intensity update leaves `lst` unchanged. -/
theorem updateIntensity_lst (m : ℚ) (p : Observation) :
    (updateIntensity m p).lst = p.lst := rfl

/-- The intensity update preserves `lst` across the whole list. -/
theorem map_lst_update (l : List Observation) (m : ℚ) :
    (l.map (updateIntensity m)).map (fun p => p.lst) = l.map (fun p => p.lst) := by
  simp only [List.map_map]
  rfl

/-- Every generated observation's zone is the inline threshold
classification of its own (rounded) temperature. -/
theorem mem_data_zone (points days : ℤ) (draws : ℕ → Draw) (r : UHIResult)
    (h : analyze_uhi points days draws = Except.ok r) (o : Observation) (ho : o ∈ r.data) :
    o.zone = classifyZone o.lst := by
  obtain ⟨-, rfl⟩ := analyze_ok_elim points days draws r h
  rw [successResult_data] at ho
  obtain ⟨q, hq, rfl⟩ := List.mem_map.1 ho
  simp only [genObservations, List.mem_map] at hq
  obtain ⟨i, -, rfl⟩ := hq
  rfl

/-- Case analysis on the inline zone thresholds. -/
theorem classifyZone_cases (t : ℚ) :
    (40 ≤ t → classifyZone t = 0) ∧ (34 ≤ t → t < 40 → classifyZone t = 1) ∧
      (t < 34 → classifyZone t = 2) := by
  unfold classifyZone
  split_ifs with h1 h2 <;>
    refine ⟨fun ha => ?_, fun hb hc => ?_, fun hd => ?_⟩ <;>
    first
      | rfl
      | linarith

/-- The inline zone classification only produces 0, 1 or 2. -/
theorem classifyZone_mem (t : ℚ) :
    classifyZone t = 0 ∨ classifyZone t = 1 ∨ classifyZone t = 2 := by
  unfold classifyZone
  split_ifs <;> simp

/-- The generated ndvi is clamped into [0.05, 0.85]. -/
theorem mkObservation_ndvi_mem (d : Draw) :
    (0.05 : ℚ) ≤ (mkObservation d).ndvi ∧ (mkObservation d).ndvi ≤ 0.85 := by
  show (0.05 : ℚ) ≤ max 0.05 (min 0.85 _) ∧ max (0.05 : ℚ) (min 0.85 _) ≤ 0.85
  exact ⟨le_max_left _ _, max_le (by norm_num) (min_le_left _ _)⟩

/-- C1: contrary to the claim, a request with `points = 0` does hit a
division by zero: the mean-temperature division runs over zero elements,
the resulting `ZeroDivisionError` is caught by the handler, and the
pipeline returns the failure result (success = false, error "division by
zero"), not a successful result with zeroed statistics. -/
theorem points_zero_raises_division_error (days : ℤ) (draws : ℕ → Draw) :
    analyze_uhi 0 days draws = Except.error "division by zero" := rfl

/-- C2: every successful analysis result contains exactly `points`
observations in its data sequence. -/
theorem successful_result_count (points days : ℤ) (draws : ℕ → Draw) (r : UHIResult)
    (h : analyze_uhi points days draws = Except.ok r) :
    (r.data.length : ℤ) = points := by
  obtain ⟨hn, rfl⟩ := analyze_ok_elim points days draws r h
  rw [successResult_data]
  simp only [List.length_map, genObservations, List.length_range]
  omega

/-- Witness for C2 at the concrete run `points = 1` on `defaultDraws`. -/
theorem successful_result_count_witness : ((sampleRes.data.length : ℤ)) = 1 :=
  successful_result_count 1 30 defaultDraws sampleRes sample_run_eq

/-- C3 counterexample: at the injected input (temperature 45.0, raw ndvi
factor 2/3 giving vegetation index 0.1) the single produced observation has
`vegetation = "Water/Built-up"`, not "Barren/Sparse" as the claim states
(0.1 < 0.2 falls in the first breakpoint). -/
theorem single_point_example_cex :
    analyze_uhi 1 30 injDraws = Except.ok injRes ∧
    injRes.data.map (fun o => o.ndvi) = [0.1] ∧
    injRes.data.map (fun o => o.vegetation) = ["Water/Built-up"] ∧
    injRes.data.map (fun o => o.vegetation) ≠ ["Barren/Sparse"] := by
  refine ⟨inj_run_eq, rfl, rfl, ?_⟩
  simp [injRes, injObs]

/-- C3 amended: for a single observation with injected temperature 45.0 and
vegetation index 0.1, the pipeline produces zone 0,
vegetation_category "Water/Built-up" (since ndvi < 0.2), color "#ef4444",
severity "High", the urgent-greening recommendation (since ndvi < 0.3), and
heat_intensity 0.0. -/
theorem single_point_example_amended :
    analyze_uhi 1 30 injDraws = Except.ok injRes ∧
    injRes.data.map (fun o =>
        (o.lst, o.ndvi, o.zone, o.vegetation, o.color, o.severity, o.recommendation,
          o.uhi_intensity)) =
      [(45, 0.1, 0, "Water/Built-up", "#ef4444", "High",
        "Plant more trees and create green spaces urgently", 0)] :=
  ⟨inj_run_eq, rfl⟩

/-- C4 counterexample: a negative `days` value is not rejected and does not
fail fast — with `points = 1` and `days = -5` the handler returns a fully
successful result (`days` only feeds the display-only date range). -/
theorem negative_days_accepted :
    handle_analyze (RawParam.intVal 1) (RawParam.intVal (-5)) defaultDraws =
      Except.ok sampleRes :=
  sample_run_eq

/-- C4 amended: a non-numeric `points` or `days` fails fast with the
descriptive ValueError message; a negative `points` also yields a failure
result (the generation loop runs zero times and the mean division raises,
caught as "division by zero"), so a negative-size observation set is never
silently produced; but a negative `days` is accepted silently and produces
a successful result. -/
theorem input_validation_amended (s : String) (p days : ℤ) (draws : ℕ → Draw)
    (hp : p < 0) :
    handle_analyze (RawParam.nonNumeric s) (RawParam.intVal days) draws =
      Except.error ("invalid literal for int() with base 10: " ++ s) ∧
    handle_analyze (RawParam.intVal p) (RawParam.nonNumeric s) draws =
      Except.error ("invalid literal for int() with base 10: " ++ s) ∧
    handle_analyze (RawParam.intVal p) (RawParam.intVal days) draws =
      Except.error "division by zero" := by
  refine ⟨rfl, rfl, ?_⟩
  show analyze_uhi p days draws = Except.error "division by zero"
  have h0 : p.toNat = 0 := by omega
  unfold analyze_uhi
  rw [h0]
  rfl

/-- Witness for C4's amended claim at `points = -3`, `days = 30`. -/
theorem input_validation_amended_witness :
    handle_analyze (RawParam.intVal (-3)) (RawParam.intVal 30) defaultDraws =
      Except.error "division by zero" :=
  (input_validation_amended "abc" (-3) 30 defaultDraws (by norm_num)).2.2

/-- C5: every generated observation's zone matches the fixed thresholds
(lst ≥ 40 → zone 0; 34 ≤ lst < 40 → zone 1; lst < 34 → zone 2), so zone is
always 0, 1 or 2. -/
theorem observation_zone_thresholds (points days : ℤ) (draws : ℕ → Draw) (r : UHIResult)
    (h : analyze_uhi points days draws = Except.ok r) (o : Observation) (ho : o ∈ r.data) :
    (40 ≤ o.lst → o.zone = 0) ∧ (34 ≤ o.lst → o.lst < 40 → o.zone = 1) ∧
      (o.lst < 34 → o.zone = 2) ∧ (o.zone = 0 ∨ o.zone = 1 ∨ o.zone = 2) := by
  have hz : o.zone = classifyZone o.lst := mem_data_zone points days draws r h o ho
  rw [hz]
  exact ⟨(classifyZone_cases o.lst).1, (classifyZone_cases o.lst).2.1,
    (classifyZone_cases o.lst).2.2, classifyZone_mem o.lst⟩

/-- Witness for C5 at the single observation of the concrete run. -/
theorem observation_zone_thresholds_witness :
    ((40 : ℚ) ≤ sampleObs.lst → sampleObs.zone = 0) ∧
      ((34 : ℚ) ≤ sampleObs.lst → sampleObs.lst < 40 → sampleObs.zone = 1) ∧
      (sampleObs.lst < 34 → sampleObs.zone = 2) ∧
      (sampleObs.zone = 0 ∨ sampleObs.zone = 1 ∨ sampleObs.zone = 2) :=
  observation_zone_thresholds 1 30 defaultDraws sampleRes sample_run_eq sampleObs
    (List.mem_singleton.2 rfl)

/-- C6: the vegetation classifier follows the fixed NDVI breakpoints
(exclusive upper bounds, evaluated low-to-high). -/
theorem classify_vegetation_thresholds (ndvi : ℚ) :
    (ndvi < 0.2 → classify_vegetation ndvi = "Water/Built-up") ∧
      (0.2 ≤ ndvi → ndvi < 0.4 → classify_vegetation ndvi = "Barren/Sparse") ∧
      (0.4 ≤ ndvi → ndvi < 0.6 → classify_vegetation ndvi = "Moderate Vegetation") ∧
      (0.6 ≤ ndvi → classify_vegetation ndvi = "Dense Vegetation") := by
  unfold classify_vegetation
  split_ifs with h1 h2 h3 <;>
    refine ⟨fun ha => ?_, fun hb hc => ?_, fun hd he => ?_, fun hf => ?_⟩ <;>
    first
      | rfl
      | linarith

/-- Witness for C6 at the spec's example inputs 0.15 and 0.65. -/
theorem classify_vegetation_thresholds_witness :
    classify_vegetation 0.15 = "Water/Built-up" ∧
      classify_vegetation 0.65 = "Dense Vegetation" :=
  ⟨(classify_vegetation_thresholds 0.15).1 (by norm_num),
    (classify_vegetation_thresholds 0.65).2.2.2 (by norm_num)⟩

/-- C7: the recommendation function implements exactly the 2-level decision
on (zone, ndvi); zone 2 never consults the vegetation index. -/
theorem get_recommendation_policy (ndvi ndvi2 : ℚ) :
    (ndvi < 0.3 →
        get_recommendation 0 ndvi = "Plant more trees and create green spaces urgently") ∧
      (0.3 ≤ ndvi →
        get_recommendation 0 ndvi = "Improve ventilation and add water features") ∧
      (ndvi < 0.4 →
        get_recommendation 1 ndvi = "Increase vegetation cover and add shade structures") ∧
      (0.4 ≤ ndvi →
        get_recommendation 1 ndvi = "Maintain current green cover and monitor temperature") ∧
      (get_recommendation 2 ndvi = "Maintain existing vegetation and urban planning") ∧
      (get_recommendation 2 ndvi = get_recommendation 2 ndvi2) := by
  unfold get_recommendation
  norm_num
  refine ⟨?_, ?_, ?_, ?_⟩ <;> intro h1 h2 <;> linarith

/-- Witness for C7 at ndvi = 0.1 (zone 0 urgent-greening branch). -/
theorem get_recommendation_policy_witness :
    get_recommendation 0 0.1 = "Plant more trees and create green spaces urgently" :=
  (get_recommendation_policy 0.1 0.9).1 (by norm_num)

/-- Filtering a list once per zone value partitions it when every element's
zone is 0, 1 or 2. -/
theorem filter_zone_partition (l : List Observation)
    (hz : ∀ p ∈ l, p.zone = 0 ∨ p.zone = 1 ∨ p.zone = 2) :
    (l.filter (fun p => p.zone == 0)).length + (l.filter (fun p => p.zone == 1)).length +
      (l.filter (fun p => p.zone == 2)).length = l.length := by
  induction l with
  | nil => rfl
  | cons a t ih =>
    have ha := hz a (List.mem_cons_self a t)
    have iht := ih (fun p hp => hz p (List.mem_cons_of_mem a hp))
    rcases ha with h | h | h <;>
      simp [List.filter_cons, h] <;>
      omega

/-- C9: in every successful result the three zone counts sum exactly to
`points`. -/
theorem zone_counts_sum_to_points (points days : ℤ) (draws : ℕ → Draw) (r : UHIResult)
    (h : analyze_uhi points days draws = Except.ok r) :
    (r.statistics.high_heat_zones : ℤ) + r.statistics.medium_heat_zones +
      r.statistics.low_heat_zones = points := by
  have hz : ∀ p ∈ r.data, p.zone = 0 ∨ p.zone = 1 ∨ p.zone = 2 := by
    intro p hp
    rw [mem_data_zone points days draws r h p hp]
    exact classifyZone_mem p.lst
  have hcount := filter_zone_partition r.data hz
  have hlen := successful_result_count points days draws r h
  obtain ⟨-, rfl⟩ := analyze_ok_elim points days draws r h
  have h0 : (successResult points draws).statistics.high_heat_zones =
      ((successResult points draws).data.filter (fun p => p.zone == 0)).length := rfl
  have h1 : (successResult points draws).statistics.medium_heat_zones =
      ((successResult points draws).data.filter (fun p => p.zone == 1)).length := rfl
  have h2 : (successResult points draws).statistics.low_heat_zones =
      ((successResult points draws).data.filter (fun p => p.zone == 2)).length := rfl
  rw [h0, h1, h2]
  omega

/-- Witness for C9 at the concrete run `points = 1` on `defaultDraws`. -/
theorem zone_counts_sum_to_points_witness :
    (sampleRes.statistics.high_heat_zones : ℤ) + sampleRes.statistics.medium_heat_zones +
      sampleRes.statistics.low_heat_zones = 1 :=
  zone_counts_sum_to_points 1 30 defaultDraws sampleRes sample_run_eq

/-- C10: every generated observation's vegetation index lies in the closed
interval [0.05, 0.85] (the clamp applied after the anti-correlation
formula). -/
theorem observation_ndvi_in_range (points days : ℤ) (draws : ℕ → Draw) (r : UHIResult)
    (h : analyze_uhi points days draws = Except.ok r) (o : Observation) (ho : o ∈ r.data) :
    (0.05 : ℚ) ≤ o.ndvi ∧ o.ndvi ≤ 0.85 := by
  obtain ⟨-, rfl⟩ := analyze_ok_elim points days draws r h
  rw [successResult_data] at ho
  obtain ⟨q, hq, rfl⟩ := List.mem_map.1 ho
  simp only [genObservations, List.mem_map] at hq
  obtain ⟨i, -, rfl⟩ := hq
  exact mkObservation_ndvi_mem (draws i)

/-- Witness for C10 at the single observation of the concrete run. -/
theorem observation_ndvi_in_range_witness :
    (0.05 : ℚ) ≤ sampleObs.ndvi ∧ sampleObs.ndvi ≤ 0.85 :=
  observation_ndvi_in_range 1 30 defaultDraws sampleRes sample_run_eq sampleObs
    (List.mem_singleton.2 rfl)

/-- Rounding to 2 decimals moves a rational by at most 1/200. -/
theorem pyRound2_err (q : ℚ) : |pyRound 2 q - q| ≤ 1 / 200 := by
  have h := abs_sub_round (q * 10 ^ 2)
  rw [abs_sub_comm] at h
  unfold pyRound
  have hne : ((10 : ℚ) ^ 2) ≠ 0 := by norm_num
  have heq : ((round (q * 10 ^ 2) : ℤ) : ℚ) / 10 ^ 2 - q =
      (((round (q * 10 ^ 2) : ℤ) : ℚ) - q * 10 ^ 2) / 10 ^ 2 := by
    field_simp
    ring
  rw [heq, abs_div, abs_of_pos (by norm_num : (0 : ℚ) < 10 ^ 2)]
  calc |((round (q * 10 ^ 2) : ℤ) : ℚ) - q * 10 ^ 2| / 10 ^ 2 ≤ (1 / 2) / 10 ^ 2 := by
        exact (div_le_div_iff_of_pos_right (by norm_num)).2 h
    _ = 1 / 200 := by norm_num

/-- Sum of a pointwise sum of two mapped functions splits. -/
theorem sum_map_add_fun (l : List ℚ) (f g : ℚ → ℚ) :
    (l.map (fun t => f t + g t)).sum = (l.map f).sum + (l.map g).sum := by
  induction l with
  | nil => simp
  | cons a t ih =>
    simp [ih]
    ring

/-- Sum of deviations from a constant. -/
theorem sum_map_sub_const (l : List ℚ) (c : ℚ) :
    (l.map (fun t => t - c)).sum = l.sum - l.length * c := by
  induction l with
  | nil => simp
  | cons a t ih =>
    simp [ih]
    ring

/-- Triangle inequality for list sums under a uniform bound. -/
theorem abs_list_sum_le (l : List ℚ) (c : ℚ) (hc : ∀ x ∈ l, |x| ≤ c) :
    |l.sum| ≤ l.length * c := by
  induction l with
  | nil => simp
  | cons a t ih =>
    have ha := hc a (List.mem_cons_self a t)
    have ht := ih (fun x hx => hc x (List.mem_cons_of_mem a hx))
    calc |(a :: t).sum| = |a + t.sum| := by simp
      _ ≤ |a| + |t.sum| := abs_add _ _
      _ ≤ c + t.length * c := add_le_add ha ht
      _ = ((a :: t).length : ℚ) * c := by
          push_cast [List.length_cons]
          ring

/-- The rounded deviations from the mean sum to at most `n / 200` in
absolute value (they would sum to exactly zero before rounding). -/
theorem sum_round_dev (ts : List ℚ) (h : (ts.length : ℚ) ≠ 0) :
    |(ts.map (fun t => pyRound 2 (t - ts.sum / (ts.length : ℚ)))).sum| ≤
      (ts.length : ℚ) * (1 / 200) := by
  have hsplit : (fun t : ℚ => pyRound 2 (t - ts.sum / (ts.length : ℚ))) =
      fun t => (t - ts.sum / (ts.length : ℚ)) +
        (pyRound 2 (t - ts.sum / (ts.length : ℚ)) - (t - ts.sum / (ts.length : ℚ))) := by
    funext t
    ring
  rw [hsplit, sum_map_add_fun, sum_map_sub_const]
  have hzero : ts.sum - (ts.length : ℚ) * (ts.sum / (ts.length : ℚ)) = 0 := by
    field_simp
  rw [hzero, zero_add]
  have hb := abs_list_sum_le
    (ts.map (fun t =>
      pyRound 2 (t - ts.sum / (ts.length : ℚ)) - (t - ts.sum / (ts.length : ℚ))))
    (1 / 200)
    (by
      intro x hx
      obtain ⟨t, ht, rfl⟩ := List.mem_map.1 hx
      exact pyRound2_err _)
  simpa using hb

/-- The intensity update across the list turns the temperatures into their
rounded deviations from `m`. -/
theorem map_uhi_update (l : List Observation) (m : ℚ) :
    (l.map (updateIntensity m)).map (fun p => p.uhi_intensity) =
      (l.map (fun p => p.lst)).map (fun t => pyRound 2 (t - m)) := by
  simp only [List.map_map]
  rfl

/-- C8: in every successful result each observation's heat intensity equals
`round(lst - mean, 2)` with the mean taken over all temperatures, and the
intensities sum to within `n / 200` of zero (each of the `n` roundings
moves the exact deviation, whose total is zero, by at most 1/200). -/
theorem heat_intensity_centered (points days : ℤ) (draws : ℕ → Draw) (r : UHIResult)
    (h : analyze_uhi points days draws = Except.ok r) :
    (∀ o ∈ r.data,
        o.uhi_intensity =
          pyRound 2 (o.lst -
            (r.data.map (fun p => p.lst)).sum / ((r.data.map (fun p => p.lst)).length : ℚ))) ∧
      |(r.data.map (fun p => p.uhi_intensity)).sum| ≤ (r.data.length : ℚ) * (1 / 200) := by
  obtain ⟨hn, rfl⟩ := analyze_ok_elim points days draws r h
  rw [successResult_data, map_lst_update, map_uhi_update]
  have hlen : ((genObservations points.toNat draws).map (fun p => p.lst)).length =
      points.toNat := by
    simp [genObservations]
  have hlen0 : ((((genObservations points.toNat draws).map (fun p => p.lst)).length : ℕ) : ℚ) ≠ 0 := by
    rw [hlen]
    exact_mod_cast hn
  constructor
  · intro o ho
    obtain ⟨q, hq, rfl⟩ := List.mem_map.1 ho
    rw [updateIntensity_lst]
    rfl
  · have hb := sum_round_dev ((genObservations points.toNat draws).map (fun p => p.lst)) hlen0
    calc |(((genObservations points.toNat draws).map (fun p => p.lst)).map (fun t =>
            pyRound 2 (t - ((genObservations points.toNat draws).map (fun p => p.lst)).sum /
              ((((genObservations points.toNat draws).map (fun p => p.lst)).length : ℕ) : ℚ)))).sum| ≤
          ((((genObservations points.toNat draws).map (fun p => p.lst)).length : ℕ) : ℚ) * (1 / 200) := hb
      _ = ((((genObservations points.toNat draws).map (updateIntensity
            (((genObservations points.toNat draws).map (fun p => p.lst)).sum /
              ((((genObservations points.toNat draws).map (fun p => p.lst)).length : ℕ) : ℚ)))).length : ℕ) : ℚ) * (1 / 200) := by
          simp

/-- Witness for C8 at the concrete run `points = 1` on `defaultDraws`. -/
theorem heat_intensity_centered_witness :
    |(sampleRes.data.map (fun p => p.uhi_intensity)).sum| ≤
      (sampleRes.data.length : ℚ) * (1 / 200) :=
  (heat_intensity_centered 1 30 defaultDraws sampleRes sample_run_eq).2
